import Mathlib

/-!
Shallow embedding of `src/platform.rs` (egui_sdl2_platform): the SDL2 → egui
input adapter. Pure Rust state mutation becomes explicit state passing on a
`Platform` structure; fallible native calls (SDL cursor creation, arboard
clipboard, URL opening) are factored into a `NativeEnv` of `Except`-valued
functions, since their success is decided by the operating system, not by this
crate. Floating-point fields (`f32` positions, wheel deltas, `f64` time) carry
the raw integer data the source casts from; no claim depends on float
arithmetic. The egui context (`egui_ctx`) is an external collaborator whose
query calls (`wants_pointer_input`, `wants_keyboard_input`) discard their
results in the source, so they are omitted.
-/

namespace EguiSdl2

/-- SDL2 keyboard modifier bitmask constants (`sdl2::keyboard::Mod`),
from the SDL2 library's `SDL_Keymod` values. -/
def LSHIFTMOD : Nat := 0x0001

def RSHIFTMOD : Nat := 0x0002

def LCTRLMOD : Nat := 0x0040

def RCTRLMOD : Nat := 0x0080

def LALTMOD : Nat := 0x0100

def RALTMOD : Nat := 0x0200

def LGUIMOD : Nat := 0x0400

def RGUIMOD : Nat := 0x0800

/-- The test the source performs on the raw bitmask:
`*keymod & Mod::XMOD == Mod::XMOD`. -/
def hasMod (keymod m : Nat) : Bool := keymod &&& m == m

/-- egui modifier flags (`egui::Modifiers`). -/
structure Modifiers where
  alt : Bool
  ctrl : Bool
  shift : Bool
  mac_cmd : Bool
  command : Bool
deriving DecidableEq, Repr

/-- Default egui modifiers: all flags cleared. -/
def Modifiers.default : Modifiers :=
  ⟨false, false, false, false, false⟩

/-- The egui logical keys this adapter's logic distinguishes (`egui::Key`):
`C`, `X`, `V` are intercepted for copy/cut/paste under ctrl; every other key
only flows through the generic key-event path, so a representative selection
of other keys suffices. -/
inductive Key where
  | c
  | x
  | v
  | a
  | enter
  | space
deriving DecidableEq, Repr

/-- Modelled from the spec: the keycode-to-logical-key mapping (the crate's
`ToEguiKey` trait, whose implementation file is not under `src/`). The spec
says the adapter only needs a total function `platform_keycode → optional
logical_key`, so a keycode is modelled as either mapping to an egui key or
being unmapped. -/
inductive Keycode where
  | mapsTo (k : Key)
  | unmapped
deriving DecidableEq, Repr

/-- `keycode.to_egui_key()` from the `ToEguiKey` trait. -/
def Keycode.to_egui_key : Keycode → Option Key
  | .mapsTo k => some k
  | .unmapped => none

/-- egui pointer buttons (`egui::PointerButton`), the three the source maps. -/
inductive PointerButton where
  | primary
  | middle
  | secondary
deriving DecidableEq, Repr

/-- SDL2 mouse buttons (`sdl2::mouse::MouseButton`). -/
inductive MouseButton where
  | left
  | middle
  | right
  | x1
  | x2
deriving DecidableEq, Repr

/-- egui IME events (`egui::ImeEvent`). -/
inductive ImeEvent where
  | enabled
  | disabled
  | preedit (text : String)
  | commit (text : String)
deriving DecidableEq, Repr

/-- A position in window space. The source stores `egui::Pos2` (f32) built by
casting SDL's `i32` coordinates; the integer data is carried directly. -/
structure Pos2 where
  x : Int
  y : Int
deriving DecidableEq, Repr

/-- Origin, `Pos2::ZERO`. -/
def Pos2.zero : Pos2 := ⟨0, 0⟩

/-- A rectangle, `egui::Rect::from_min_size(min, size)` with integer data. -/
structure Rect where
  min : Pos2
  size : Pos2
deriving DecidableEq, Repr

/-- The egui events this adapter queues (`egui::Event` variants used by the
source). The mouse-wheel delta carries the scaled integer data
(`x * 8, y * 8`, the source's `* 8.0` on cast `i32` values). -/
inductive EguiEvent where
  | copy
  | cut
  | paste (text : String)
  | pointerButton (pos : Pos2) (button : PointerButton) (pressed : Bool)
      (modifiers : Modifiers)
  | pointerMoved (pos : Pos2)
  | mouseWheel (delta : Pos2) (modifiers : Modifiers)
  | key (k : Key) (physical_key : Option Key) (pressed : Bool) (rep : Bool)
      (modifiers : Modifiers)
  | text (s : String)
  | ime (e : ImeEvent)
deriving DecidableEq, Repr

/-- The accumulated input handed to egui each frame (`egui::RawInput`,
restricted to the fields the source reads or writes). -/
structure RawInput where
  screen_rect : Option Rect
  events : List EguiEvent
  modifiers : Modifiers
  time : Option Int
deriving DecidableEq, Repr

/-- `egui::RawInput::default()` restricted to the modelled fields. -/
def RawInput.default : RawInput :=
  ⟨none, [], Modifiers.default, none⟩

/-- Modelled from the external egui library: `RawInput::take` moves the
accumulated input out, leaving `events` empty and `screen_rect`/`time` taken
(`Option::take`), while `modifiers` is copied and retained. Returns the taken
value and the residue. -/
def RawInput.take (r : RawInput) : RawInput × RawInput :=
  (r, { screen_rect := none, events := [], modifiers := r.modifiers,
        time := none })

/-- SDL system cursor kinds (`sdl2::mouse::SystemCursor`), the kinds the
source's cursor-icon table targets. -/
inductive SystemCursor where
  | arrow
  | crosshair
  | hand
  | sizeAll
  | sizeWE
  | sizeNESW
  | sizeNWSE
  | sizeNS
  | iBeam
  | no
  | wait
deriving DecidableEq, Repr

/-- egui cursor icons (`egui::CursorIcon`): the variants the source matches by
name, plus `other` standing for every variant covered by the `_ => Arrow`
catch-all arm. -/
inductive CursorIcon where
  | crosshair
  | defaultIcon
  | grab
  | grabbing
  | move
  | pointingHand
  | resizeHorizontal
  | resizeNeSw
  | resizeNwSe
  | resizeVertical
  | text
  | notAllowed
  | noDrop
  | wait
  | other
deriving DecidableEq, Repr

/-- An egui RGBA pixel (`egui::Color32`); `to_array` yields its four bytes. -/
structure Color32 where
  r : Nat
  g : Nat
  b : Nat
  a : Nat
deriving DecidableEq, Repr

/-- `Color32::to_array`. -/
def Color32.to_array (c : Color32) : List Nat := [c.r, c.g, c.b, c.a]

/-- egui output commands (`egui::OutputCommand`). -/
inductive OutputCommand where
  | copyText (text : String)
  | copyImage (width : Nat) (height : Nat) (pixels : List Color32)
  | openUrl (url : String)
deriving DecidableEq, Repr

/-- The per-frame toolkit output the source consumes
(`egui::PlatformOutput`, restricted to the fields the source reads). -/
structure PlatformOutput where
  commands : List OutputCommand
  cursor_icon : CursorIcon
deriving DecidableEq, Repr

/-- The fallible native calls the adapter makes, supplied by the operating
system: SDL `Cursor::from_system` (success yields the realized cursor, carried
as its kind), arboard clipboard reads/writes, and `open::that`. -/
structure NativeEnv where
  from_system : SystemCursor → Except String SystemCursor
  get_text : Except String String
  set_text : String → Except String Unit
  set_image : Nat → Nat → List Nat → Except String Unit
  open_that : String → Except String Unit

/-- SDL2 window events (`sdl2::event::WindowEvent`), the two the source
handles plus a stand-in for the ignored rest. -/
inductive WindowEvent where
  | resized (w h : Int)
  | sizeChanged (w h : Int)
  | otherWindowEvent
deriving DecidableEq, Repr

/-- SDL2 events (`sdl2::event::Event`), the variants the source matches plus a
stand-in for the ignored rest. Key events carry the optional keycode and the
raw modifier bitmask (`keymod`). -/
inductive SdlEvent where
  | window (win_event : WindowEvent)
  | mouseButtonDown (mouse_btn : MouseButton)
  | mouseButtonUp (mouse_btn : MouseButton)
  | mouseMotion (x y : Int)
  | mouseWheel (x y : Int)
  | keyDown (keycode : Option Keycode) (keymod : Nat)
  | keyUp (keycode : Option Keycode) (keymod : Nat)
  | textInput (text : String)
  | textEditing (text : String) (start : Int) (length : Int)
  | otherEvent
deriving DecidableEq, Repr

/-- The adapter state (`Platform`). The native cursor resource is carried as
the kind it realizes; `none` when construction-time acquisition failed. The
`egui_ctx` and `clipboard` collaborators live in `NativeEnv` / outside the
model (see the module docstring). -/
structure Platform where
  cursor : Option SystemCursor
  system_cursor : SystemCursor
  pointer_pos : Pos2
  modifiers : Modifiers
  raw_input : RawInput
  compositing : Bool
  has_sent_ime_enabled : Bool
deriving DecidableEq, Repr

namespace Platform

/-- `Platform::targeting`: construct the adapter for a target rectangle. The
arrow-cursor acquisition is best-effort (`.map_err(log).ok()`): failure leaves
`cursor = none` and construction still succeeds. (The `arboard` clipboard
feature's fallible `Clipboard::new()?` is the only construction failure in the
source and lives in `NativeEnv`; no claim exercises it.) -/
def targeting (env : NativeEnv) (rect : Rect) : Platform :=
  { cursor := (env.from_system SystemCursor.arrow).toOption
    system_cursor := SystemCursor.arrow
    pointer_pos := Pos2.zero
    modifiers := Modifiers.default
    raw_input := { RawInput.default with screen_rect := some rect }
    compositing := false
    has_sent_ime_enabled := false }

/-- `Platform::new`: construct for a screen size (origin zero). -/
def new (env : NativeEnv) (w h : Int) : Platform :=
  targeting env ⟨Pos2.zero, ⟨w, h⟩⟩

/-- `Platform::change_target`. -/
def change_target (p : Platform) (rect : Rect) : Platform :=
  { p with raw_input := { p.raw_input with screen_rect := some rect } }

/-- `self.raw_input.events.push(e)`. -/
def push (p : Platform) (e : EguiEvent) : Platform :=
  { p with raw_input :=
      { p.raw_input with events := p.raw_input.events ++ [e] } }

/-- `Platform::ime_event_enable`: queue `Ime(Enabled)` once, guarded by
`has_sent_ime_enabled`. -/
def ime_event_enable (p : Platform) : Platform :=
  if !p.has_sent_ime_enabled then
    { p.push (.ime .enabled) with has_sent_ime_enabled := true }
  else
    p

/-- `Platform::ime_event_disable`: queue `Ime(Disabled)` and clear the
announcement guard. -/
def ime_event_disable (p : Platform) : Platform :=
  { p.push (.ime .disabled) with has_sent_ime_enabled := false }

/-- `Platform::handle_event`: consume one SDL event, mutating state and
queuing egui events. Each arm follows the source's match arm of the same
shape; the discarded `egui_ctx.wants_*_input()` query calls are omitted. -/
def handle_event (env : NativeEnv) (p : Platform) (event : SdlEvent) :
    Platform :=
  match event with
  | .window win_event =>
    match win_event with
    | .resized w h | .sizeChanged w h =>
      p.change_target ⟨Pos2.zero, ⟨w, h⟩⟩
    | .otherWindowEvent => p
  | .mouseButtonDown mouse_btn =>
    let btn : Option PointerButton :=
      match mouse_btn with
      | .left => some .primary
      | .middle => some .middle
      | .right => some .secondary
      | _ => none
    match btn with
    | some btn =>
      p.push (.pointerButton p.pointer_pos btn true p.modifiers)
    | none => p
  | .mouseButtonUp mouse_btn =>
    let btn : Option PointerButton :=
      match mouse_btn with
      | .left => some .primary
      | .middle => some .middle
      | .right => some .secondary
      | _ => none
    match btn with
    | some btn =>
      p.push (.pointerButton p.pointer_pos btn false p.modifiers)
    | none => p
  | .mouseMotion x y =>
    let p := { p with pointer_pos := ⟨x, y⟩ }
    p.push (.pointerMoved p.pointer_pos)
  | .mouseWheel x y =>
    p.push (.mouseWheel ⟨x * 8, y * 8⟩ p.modifiers)
  | .keyDown keycode keymod =>
    match keycode with
    | none => p
    | some keycode =>
      match keycode.to_egui_key with
      | none => p
      | some key =>
        let alt := hasMod keymod LALTMOD || hasMod keymod RALTMOD
        let ctrl := hasMod keymod LCTRLMOD || hasMod keymod RCTRLMOD
        let shift := hasMod keymod LSHIFTMOD || hasMod keymod RSHIFTMOD
        let mac_cmd := hasMod keymod LGUIMOD
        let command := hasMod keymod LCTRLMOD || hasMod keymod LGUIMOD
        let p :=
          if ctrl then
            match key with
            | .c => p.push .copy
            | .x => p.push .cut
            | .v =>
              match env.get_text with
              | .ok txt => p.push (.paste txt)
              | .error _ => p
            | _ => p
          else p
        let mods : Modifiers := ⟨alt, ctrl, shift, mac_cmd, command⟩
        let p := { p with modifiers := mods,
                          raw_input := { p.raw_input with modifiers := mods } }
        p.push (.key key (some key) true false mods)
  | .keyUp keycode keymod =>
    match keycode with
    | none => p
    | some keycode =>
      match keycode.to_egui_key with
      | none => p
      | some key =>
        let alt := hasMod keymod LALTMOD || hasMod keymod RALTMOD
        let ctrl := hasMod keymod LCTRLMOD || hasMod keymod RCTRLMOD
        let shift := hasMod keymod LSHIFTMOD || hasMod keymod RSHIFTMOD
        let mac_cmd := hasMod keymod LGUIMOD
        let command := hasMod keymod LCTRLMOD || hasMod keymod LGUIMOD
        let mods : Modifiers := ⟨alt, ctrl, shift, mac_cmd, command⟩
        let p := { p with modifiers := mods,
                          raw_input := { p.raw_input with modifiers := mods } }
        p.push (.key key (some key) false false mods)
  | .textInput text =>
    if p.compositing then
      let p := { p with compositing := false }
      let p := p.push (.ime (.commit text))
      p.ime_event_disable
    else
      p.push (.text text)
  | .textEditing text start length =>
    if (start == 0 && length == 0) || text.isEmpty then
      p.ime_event_disable
    else
      let p := p.ime_event_enable
      let p := { p with compositing := true }
      p.push (.ime (.preedit text))
  | .otherEvent => p

/-- `Platform::update_time`. -/
def update_time (p : Platform) (duration : Int) : Platform :=
  { p with raw_input := { p.raw_input with time := some duration } }

/-- `Platform::context`: begin the frame by handing `raw_input.take()` to
`egui_ctx.begin_pass`. Returns the taken input batch (what the toolkit
receives) and the post-call adapter state. -/
def context (p : Platform) : RawInput × Platform :=
  let (taken, rest) := p.raw_input.take
  (taken, { p with raw_input := rest })

/-- The source's cursor-icon table in `autoupdate_platform`: map egui's
`CursorIcon` to SDL's `SystemCursor`, defaulting to `Arrow`. -/
def cursor_icon_to_system : CursorIcon → SystemCursor
  | .crosshair => .crosshair
  | .defaultIcon => .arrow
  | .grab => .hand
  | .grabbing => .sizeAll
  | .move => .sizeAll
  | .pointingHand => .hand
  | .resizeHorizontal => .sizeWE
  | .resizeNeSw => .sizeNESW
  | .resizeNwSe => .sizeNWSE
  | .resizeVertical => .sizeNS
  | .text => .iBeam
  | .notAllowed | .noDrop => .no
  | .wait => .wait
  | .other => .arrow

/-- `Platform::handle_platform_cmd` (feature `platform_ext`): execute one
output command against the native environment. It mutates no adapter state. -/
def handle_platform_cmd (env : NativeEnv) (cmd : OutputCommand) :
    Except String Unit :=
  match cmd with
  | .copyText text => env.set_text text
  | .copyImage width height pixels =>
    env.set_image width height (pixels.map Color32.to_array).flatten
  | .openUrl url => env.open_that url

/-- The `for cmd in output.commands { self.handle_platform_cmd(cmd)?; }` loop:
fail-fast over the command list. -/
def run_commands (env : NativeEnv) : List OutputCommand → Except String Unit
  | [] => .ok ()
  | cmd :: rest =>
    match handle_platform_cmd env cmd with
    | .ok _ => run_commands env rest
    | .error e => .error e

/-- `Platform::autoupdate_platform` (feature `platform_ext`). Returns the
call's result together with the adapter state as left by the call — in Rust
the `&mut self` mutations made before a `?` persist when the error returns,
so the state is reported on the error path too. `cursor.set()` is a native
side effect with no adapter state. -/
def autoupdate_platform (env : NativeEnv) (p : Platform)
    (output : PlatformOutput) : Except String Unit × Platform :=
  match run_commands env output.commands with
  | .error e => (.error e, p)
  | .ok _ =>
    match p.cursor with
    | none => (.ok (), p)
    | some _ =>
      let new_cursor := cursor_icon_to_system output.cursor_icon
      if p.system_cursor ≠ new_cursor then
        let p := { p with system_cursor := new_cursor }
        match env.from_system new_cursor with
        | .error e =>
          (.error ("Failed to get cursor from systems cursor: " ++ e), p)
        | .ok c => (.ok (), { p with cursor := some c })
      else
        (.ok (), p)

end Platform

/-! Definitions supporting the claims: concrete environments and scenario
states, the spec-side modifier function, and the temporal IME-scan
machinery. -/

/-- A native environment in which every call succeeds; `from_system` realizes
the requested kind and the clipboard reads empty text. -/
def envOk : NativeEnv :=
  { from_system := fun c => .ok c
    get_text := .ok ""
    set_text := fun _ => .ok ()
    set_image := fun _ _ _ => .ok ()
    open_that := fun _ => .ok () }

/-- A native environment in which SDL cursor creation always fails. -/
def envNoCursor : NativeEnv :=
  { envOk with from_system := fun _ => .error "cursor unavailable" }

/-- A concrete 800×600 target rectangle. -/
def rect0 : Rect := ⟨Pos2.zero, ⟨800, 600⟩⟩

/-- A freshly constructed adapter (cursor acquisition succeeded). -/
def p_fresh : Platform := Platform.targeting envOk rect0

/-- A frame output requesting the text cursor and no commands. -/
def out_text : PlatformOutput := ⟨[], .text⟩

/-- The modifier flags the source computes from the raw bitmask on every
mapped key event, as a standalone function of the bitmask alone:
alt/ctrl/shift from either-side keys, `mac_cmd` from the left GUI key, and
`command` from left-ctrl OR left-GUI. -/
def modifiersOfKeymod (keymod : Nat) : Modifiers :=
  ⟨hasMod keymod LALTMOD || hasMod keymod RALTMOD,
   hasMod keymod LCTRLMOD || hasMod keymod RCTRLMOD,
   hasMod keymod LSHIFTMOD || hasMod keymod RSHIFTMOD,
   hasMod keymod LGUIMOD,
   hasMod keymod LCTRLMOD || hasMod keymod LGUIMOD⟩

/-- Process a whole SDL event sequence in order. -/
def Platform.run_events (p : Platform) (env : NativeEnv)
    (es : List SdlEvent) : Platform :=
  es.foldl (Platform.handle_event env) p

/-- Whether an IME-enabled notification is "armed" while scanning a queued
trace: set by `Enabled`, cleared by `Disabled`, untouched by everything
else. -/
def imeArm (a : Bool) (e : EguiEvent) : Bool :=
  match e with
  | .ime .enabled => true
  | .ime .disabled => false
  | _ => a

/-- An event that affects neither the armed state nor the at-most-once
property: anything but `Ime(Enabled)` and `Ime(Disabled)`. -/
def imeNeutral : EguiEvent → Bool
  | .ime .enabled => false
  | .ime .disabled => false
  | _ => true

/-- The temporal property of the IME protocol as a scan over the queued
trace: an `Ime(Enabled)` event may appear only while none is armed, i.e.
at most one `Enabled` occurs between consecutive `Disabled` events (and
before the first one). -/
def imeScanOk (a : Bool) : List EguiEvent → Bool
  | [] => true
  | e :: t =>
    (match e with
     | .ime .enabled => !a
     | _ => true) && imeScanOk (imeArm a e) t

/-- The inductive invariant tying the queued trace to the
`has_sent_ime_enabled` guard: the trace never repeats `Enabled` while armed,
and its armed state agrees with the guard. -/
def ImeInv (p : Platform) : Prop :=
  imeScanOk false p.raw_input.events = true ∧
    p.raw_input.events.foldl imeArm false = p.has_sent_ime_enabled

/-- Scenario state for C1: fresh adapter, then
`TextEditing("ni", 0, 2)`, then `TextEditing("", 0, 0)`. -/
def c1_state : Platform :=
  p_fresh.run_events envOk [.textEditing "ni" 0 2, .textEditing "" 0 0]

/-- Scenario state for C2: fresh adapter, then `TextEditing("", 0, 2)` —
empty candidate text but a non-empty edit range. -/
def c2_state : Platform :=
  p_fresh.handle_event envOk (.textEditing "" 0 2)

/-- Scenario state for C3: fresh adapter, a composition update, then
`TextInput("x")` committing while composing. -/
def c3_state : Platform :=
  p_fresh.run_events envOk [.textEditing "ni" 0 2, .textInput "x"]

/-- Scenario state for C4: key-down for `C` with only the right ctrl key
held. -/
def c4_state : Platform :=
  p_fresh.handle_event envOk (.keyDown (some (.mapsTo .c)) RCTRLMOD)

/-- Scenario state for C6: an adapter whose modifier state carries ctrl from
an earlier key event, before an unmapped-keycode event arrives. -/
def c6_ctrl_state : Platform :=
  p_fresh.handle_event envOk (.keyDown (some (.mapsTo .a)) LCTRLMOD)

/-! Helper lemmas shared by the claim theorems. -/

/-- `ImeInv` depends only on the queued trace and the announcement guard. -/
theorem imeInv_of_eq {p q : Platform}
    (hev : q.raw_input.events = p.raw_input.events)
    (hs : q.has_sent_ime_enabled = p.has_sent_ime_enabled)
    (h : ImeInv p) : ImeInv q :=
  ⟨by rw [hev]; exact h.1, by rw [hev, hs]; exact h.2⟩

/-- `imeArm` ignores neutral events. -/
theorem imeArm_neutral {e : EguiEvent} (he : imeNeutral e = true) (a : Bool) :
    imeArm a e = a := by
  cases e
  case ime i => cases i <;> simp_all [imeNeutral, imeArm]
  all_goals rfl

/-- `imeScanOk` splits over concatenation, threading the armed state. -/
theorem imeScanOk_append (a : Bool) (t u : List EguiEvent) :
    imeScanOk a (t ++ u) = (imeScanOk a t && imeScanOk (t.foldl imeArm a) u) := by
  induction t generalizing a with
  | nil => simp [imeScanOk]
  | cons e t ih => simp [imeScanOk, ih, Bool.and_assoc]

/-- Queuing any event other than `Ime(Enabled)`/`Ime(Disabled)` preserves the
IME invariant. -/
theorem ImeInv.push_neutral {p : Platform} {e : EguiEvent} (h : ImeInv p)
    (he : imeNeutral e = true) : ImeInv (p.push e) := by
  refine ⟨?_, ?_⟩
  · show imeScanOk false (p.raw_input.events ++ [e]) = true
    rw [imeScanOk_append, h.1]
    have : imeScanOk (List.foldl imeArm false p.raw_input.events) [e] = true := by
      cases e
      case ime i => cases i <;> simp_all [imeNeutral, imeScanOk, imeArm]
      all_goals rfl
    rw [this]
    rfl
  · show (p.raw_input.events ++ [e]).foldl imeArm false = p.has_sent_ime_enabled
    rw [List.foldl_append]
    show imeArm (List.foldl imeArm false p.raw_input.events) e = _
    rw [imeArm_neutral he, h.2]

/-- `ime_event_enable` preserves the IME invariant: the guard ensures the
`Enabled` event is only queued while the trace is unarmed. -/
theorem ImeInv.enable {p : Platform} (h : ImeInv p) :
    ImeInv p.ime_event_enable := by
  unfold Platform.ime_event_enable
  cases hs : p.has_sent_ime_enabled
  · simp only [Bool.not_false, if_pos]
    refine ⟨?_, ?_⟩
    · show imeScanOk false (p.raw_input.events ++ [EguiEvent.ime ImeEvent.enabled]) = true
      rw [imeScanOk_append, h.1, h.2, hs]
      rfl
    · show (p.raw_input.events ++ [EguiEvent.ime ImeEvent.enabled]).foldl imeArm false = true
      rw [List.foldl_append]
      rfl
  · simp only [Bool.not_true, Bool.false_eq_true, if_false]
    exact h

/-- `ime_event_disable` preserves the IME invariant: it disarms the trace and
clears the guard. -/
theorem ImeInv.disable {p : Platform} (h : ImeInv p) :
    ImeInv p.ime_event_disable := by
  refine ⟨?_, ?_⟩
  · show imeScanOk false (p.raw_input.events ++ [EguiEvent.ime ImeEvent.disabled]) = true
    rw [imeScanOk_append, h.1]
    cases List.foldl imeArm false p.raw_input.events <;> rfl
  · show (p.raw_input.events ++ [EguiEvent.ime ImeEvent.disabled]).foldl imeArm false = false
    rw [List.foldl_append]
    rfl

/-- `handle_event` preserves the IME invariant, whatever the event. -/
theorem ImeInv.handle_event {p : Platform} (env : NativeEnv) (e : SdlEvent)
    (h : ImeInv p) : ImeInv (p.handle_event env e) := by
  cases e
  case window we => cases we <;> exact imeInv_of_eq rfl rfl h
  case mouseButtonDown b =>
    cases b <;> first | exact h.push_neutral rfl | exact h
  case mouseButtonUp b =>
    cases b <;> first | exact h.push_neutral rfl | exact h
  case mouseMotion x y => exact ImeInv.push_neutral (imeInv_of_eq rfl rfl h) rfl
  case mouseWheel x y => exact h.push_neutral rfl
  case keyDown keycode keymod =>
    cases keycode
    case none => exact h
    case some kc =>
      cases kc
      case unmapped => exact h
      case mapsTo k =>
        refine ImeInv.push_neutral ?_ rfl
        cases hcv : hasMod keymod LCTRLMOD || hasMod keymod RCTRLMOD
        · simp only [Platform.handle_event, Keycode.to_egui_key, hcv,
            Bool.false_eq_true, if_false]
          exact imeInv_of_eq rfl rfl h
        · simp only [Platform.handle_event, Keycode.to_egui_key, hcv, if_true]
          cases k
          case c => exact imeInv_of_eq rfl rfl (h.push_neutral rfl)
          case x => exact imeInv_of_eq rfl rfl (h.push_neutral rfl)
          case v =>
            cases hg : env.get_text
            · simp only [hg]
              exact imeInv_of_eq rfl rfl h
            · simp only [hg]
              exact imeInv_of_eq rfl rfl (h.push_neutral rfl)
          all_goals exact imeInv_of_eq rfl rfl h
  case keyUp keycode keymod =>
    cases keycode
    case none => exact h
    case some kc =>
      cases kc
      case unmapped => exact h
      case mapsTo k =>
        exact ImeInv.push_neutral (imeInv_of_eq rfl rfl h) rfl
  case textInput text =>
    cases hc : p.compositing
    · simp only [Platform.handle_event, hc, Bool.false_eq_true, if_false]
      exact h.push_neutral rfl
    · simp only [Platform.handle_event, hc, if_true]
      exact ImeInv.disable
        (ImeInv.push_neutral (imeInv_of_eq rfl rfl h) rfl)
  case textEditing text start length =>
    cases hcv : (start == 0 && length == 0) || text.isEmpty
    · simp only [Platform.handle_event, hcv, Bool.false_eq_true, if_false]
      exact ImeInv.push_neutral (imeInv_of_eq rfl rfl h.enable) rfl
    · simp only [Platform.handle_event, hcv, if_true]
      exact h.disable
  case otherEvent => exact h

/-- Folding `handle_event` over an event list preserves the IME invariant. -/
theorem imeInv_run_events (env : NativeEnv) (es : List SdlEvent) :
    ∀ p : Platform, ImeInv p → ImeInv (p.run_events env es) := by
  induction es with
  | nil => intro p h; exact h
  | cons e es ih => intro p h; exact ih _ (h.handle_event env e)

/-- A freshly constructed adapter satisfies the IME invariant. -/
theorem imeInv_targeting (env : NativeEnv) (rect : Rect) :
    ImeInv (Platform.targeting env rect) :=
  ⟨rfl, rfl⟩

/-- The modifier state after a key-down event with a mapped keycode is the
standalone function of the raw bitmask. -/
theorem handle_keyDown_modifiers (env : NativeEnv) (p : Platform) (k : Key)
    (keymod : Nat) :
    (p.handle_event env (.keyDown (some (.mapsTo k)) keymod)).modifiers
      = modifiersOfKeymod keymod := by
  cases hcv : hasMod keymod LCTRLMOD || hasMod keymod RCTRLMOD
  · simp only [Platform.handle_event, Keycode.to_egui_key, hcv,
      Bool.false_eq_true, if_false]
    simp [Platform.push, modifiersOfKeymod, hcv]
  · simp only [Platform.handle_event, Keycode.to_egui_key, hcv, if_true]
    cases k <;> simp [Platform.push, modifiersOfKeymod, hcv]

/-- The modifier state after a key-up event with a mapped keycode is the
standalone function of the raw bitmask. -/
theorem handle_keyUp_modifiers (env : NativeEnv) (p : Platform) (k : Key)
    (keymod : Nat) :
    (p.handle_event env (.keyUp (some (.mapsTo k)) keymod)).modifiers
      = modifiersOfKeymod keymod :=
  rfl

/-- The events appended by a key-down for `C` with a ctrl key held: `Copy`
first, then the key-press event. -/
theorem handle_keyDown_ctrl_c_events (env : NativeEnv) (p : Platform)
    (keymod : Nat)
    (h : (hasMod keymod LCTRLMOD || hasMod keymod RCTRLMOD) = true) :
    (p.handle_event env (.keyDown (some (.mapsTo .c)) keymod)).raw_input.events
      = p.raw_input.events
        ++ [.copy, .key .c (some .c) true false (modifiersOfKeymod keymod)] := by
  simp only [Platform.handle_event, Keycode.to_egui_key, h, if_true]
  simp [Platform.push, modifiersOfKeymod, h]

/-! The claims. -/

/-- Claim C1, counterexample: after `TextEditing("ni", 0, 2)` then
`TextEditing("", 0, 0)` on a fresh adapter, it is NOT the case that the queue
is IME-enabled, IME-preedit("ni"), IME-disabled with `compositing = false`
afterwards — the events are right but the composition-end path never clears
`compositing`, which remains `true`. -/
theorem C1_counterexample :
    ¬ (c1_state.raw_input.events
          = [.ime .enabled, .ime (.preedit "ni"), .ime .disabled]
        ∧ c1_state.compositing = false) := by
  decide

/-- Claim C1 (amended): for the event sequence `TextEditing("ni", 0, 2)` then
`TextEditing("", 0, 0)`, `handle_event` queues exactly IME-enabled,
IME-preedit("ni"), IME-disabled, in that order, and the adapter's
`compositing` flag is TRUE afterwards (the disable path resets only the
`has_sent_ime_enabled` guard, not `compositing`). -/
theorem C1_ime_scenario :
    c1_state.raw_input.events
        = [.ime .enabled, .ime (.preedit "ni"), .ime .disabled]
      ∧ c1_state.compositing = true := by
  decide

/-- Claim C2, counterexample: for `TextEditing("", 0, 2)` — empty candidate
text but a NON-empty edit range — the claim's iff-condition (range empty AND
text empty) is false, yet the code takes the composition-end branch and
queues IME-disabled: the code's condition is a disjunction, not a
conjunction. -/
theorem C2_counterexample :
    ¬ ((c2_state.raw_input.events.contains (.ime .disabled) = true) ↔
        (((0 : Int) = 0 ∧ (2 : Int) = 0) ∧ ("" : String).isEmpty = true)) := by
  decide

/-- Claim C2 (amended): `handle_event` on a `TextEditing` event takes the
composition-end branch — queue IME-disabled and reset the announcement guard,
leaving `compositing` UNCHANGED — if and only if the edit range is empty OR
the candidate text is empty; otherwise it emits IME-enabled (at most once,
guarded by the announced flag), sets the composition flag true, and queues an
IME-preedit event carrying the candidate text. -/
theorem C2_textEditing_characterization (env : NativeEnv) (p : Platform)
    (text : String) (start length : Int) :
    if (start == 0 && length == 0) || text.isEmpty then
      (p.handle_event env (.textEditing text start length)).raw_input.events
            = p.raw_input.events ++ [.ime .disabled]
        ∧ (p.handle_event env
            (.textEditing text start length)).has_sent_ime_enabled = false
        ∧ (p.handle_event env
            (.textEditing text start length)).compositing = p.compositing
    else
      (p.handle_event env (.textEditing text start length)).raw_input.events
            = p.raw_input.events
              ++ ((if p.has_sent_ime_enabled then [] else [.ime .enabled])
                  ++ [.ime (.preedit text)])
        ∧ (p.handle_event env
            (.textEditing text start length)).has_sent_ime_enabled = true
        ∧ (p.handle_event env
            (.textEditing text start length)).compositing = true := by
  cases hcv : (start == 0 && length == 0) || text.isEmpty
  · simp only [Platform.handle_event, hcv, Bool.false_eq_true, if_false]
    cases hs : p.has_sent_ime_enabled <;>
      simp [Platform.ime_event_enable, hs, Platform.push]
  · simp only [Platform.handle_event, hcv, if_true]
    simp [Platform.ime_event_disable, Platform.push]

/-- Claim C3, counterexample: committing `TextInput("x")` while composing
queues the IME-commit FIRST and the IME-disabled notification after it, so no
IME-disabled sits at or before the commit in the queue. -/
theorem C3_counterexample :
    c3_state.raw_input.events
        = [.ime .enabled, .ime (.preedit "ni"), .ime (.commit "x"),
           .ime .disabled]
      ∧ ¬ (c3_state.raw_input.events.indexOf (.ime .disabled)
            ≤ c3_state.raw_input.events.indexOf (.ime (.commit "x"))) := by
  decide

/-- Claim C3 (amended): for every `TextInput` event received while the
composition flag is true, `handle_event` queues the IME-commit event carrying
the committed text and an IME-disabled notification IMMEDIATELY AFTER it
(not at or before it), clearing both the composition flag and the
announcement guard; while the composition flag is false it queues a plain
text-insert event and nothing else. -/
theorem C3_textInput_characterization (env : NativeEnv) (p : Platform)
    (text : String) :
    if p.compositing then
      (p.handle_event env (.textInput text)).raw_input.events
            = p.raw_input.events ++ [.ime (.commit text), .ime .disabled]
        ∧ (p.handle_event env (.textInput text)).compositing = false
        ∧ (p.handle_event env (.textInput text)).has_sent_ime_enabled = false
    else
      (p.handle_event env (.textInput text)).raw_input.events
            = p.raw_input.events ++ [.text text]
        ∧ (p.handle_event env (.textInput text)).compositing = false
        ∧ (p.handle_event env (.textInput text)).has_sent_ime_enabled
            = p.has_sent_ime_enabled := by
  cases hc : p.compositing
  · simp only [Platform.handle_event, hc, Bool.false_eq_true, if_false]
    simp [Platform.push, hc]
  · simp only [Platform.handle_event, hc, if_true]
    simp [Platform.ime_event_disable, Platform.push]

/-- Claim C4, counterexample: a key-down for `C` with only the RIGHT ctrl key
held yields `ctrl = true` but `command = false` — `command` is computed from
left-ctrl OR left-GUI only, so it is not true whenever either ctrl key is
held. -/
theorem C4_counterexample :
    c4_state.modifiers.ctrl = true
      ∧ c4_state.modifiers.mac_cmd = false
      ∧ c4_state.modifiers.command = false := by
  decide

/-- Claim C4 (amended): for every key-down or key-up event whose keycode maps
to a logical key, the recomputed flags satisfy: alt = either alt key, ctrl =
either ctrl key, shift = either shift key, platform-meta = left GUI key, and
command = LEFT-ctrl OR left-GUI (the right ctrl key does not set command). -/
theorem C4_modifier_flags (env : NativeEnv) (p : Platform) (k : Key)
    (keymod : Nat) :
    ((p.handle_event env (.keyDown (some (.mapsTo k)) keymod)).modifiers
        = modifiersOfKeymod keymod)
      ∧ ((p.handle_event env (.keyUp (some (.mapsTo k)) keymod)).modifiers
        = modifiersOfKeymod keymod)
      ∧ (modifiersOfKeymod keymod).alt
        = (hasMod keymod LALTMOD || hasMod keymod RALTMOD)
      ∧ (modifiersOfKeymod keymod).ctrl
        = (hasMod keymod LCTRLMOD || hasMod keymod RCTRLMOD)
      ∧ (modifiersOfKeymod keymod).shift
        = (hasMod keymod LSHIFTMOD || hasMod keymod RSHIFTMOD)
      ∧ (modifiersOfKeymod keymod).mac_cmd = hasMod keymod LGUIMOD
      ∧ (modifiersOfKeymod keymod).command
        = (hasMod keymod LCTRLMOD || hasMod keymod LGUIMOD) :=
  ⟨handle_keyDown_modifiers env p k keymod,
   handle_keyUp_modifiers env p k keymod, rfl, rfl, rfl, rfl, rfl⟩

/-- Claim C5, counterexample: with an environment in which SDL cursor creation
fails, `autoupdate_platform` asked to change the realized cursor DOES return
an error (the `?` operator propagates the failure) — cursor-change-time
failure is not ignored. -/
theorem C5_counterexample :
    envNoCursor.from_system
        (Platform.cursor_icon_to_system out_text.cursor_icon)
        = .error "cursor unavailable"
      ∧ (Platform.autoupdate_platform envNoCursor p_fresh out_text).1
        = .error "Failed to get cursor from systems cursor: cursor unavailable" :=
  ⟨rfl, rfl⟩

/-- Claim C5 (amended): native cursor acquisition failure at CONSTRUCTION is
non-fatal — the adapter is built with no cursor override (`cursor = none`) —
but at cursor-change time during output application the failure to construct
the new native cursor is propagated: `autoupdate_platform` returns the
error. -/
theorem C5_cursor_failure (env env2 : NativeEnv) (rect : Rect)
    (p : Platform) (output : PlatformOutput) (m m2 : String)
    (hconstruct : env.from_system .arrow = .error m)
    (hcur : p.cursor.isSome = true)
    (hdiff : p.system_cursor ≠ Platform.cursor_icon_to_system output.cursor_icon)
    (hcmds : Platform.run_commands env2 output.commands = .ok ())
    (hfail : env2.from_system
        (Platform.cursor_icon_to_system output.cursor_icon) = .error m2) :
    (Platform.targeting env rect).cursor = none
      ∧ (Platform.autoupdate_platform env2 p output).1
        = .error ("Failed to get cursor from systems cursor: " ++ m2) := by
  constructor
  · simp [Platform.targeting, hconstruct, Except.toOption]
  · obtain ⟨c, hc⟩ := Option.isSome_iff_exists.mp hcur
    simp [Platform.autoupdate_platform, hcmds, hc, hdiff, hfail]

/-- Claim C5 witness: the construction and cursor-change hypotheses are
satisfiable at a concrete failing environment and fresh adapter. -/
theorem C5_cursor_failure_witness :
    (envNoCursor.from_system .arrow = .error "cursor unavailable"
        ∧ p_fresh.cursor.isSome = true
        ∧ p_fresh.system_cursor
            ≠ Platform.cursor_icon_to_system out_text.cursor_icon
        ∧ Platform.run_commands envNoCursor out_text.commands = .ok ()
        ∧ envNoCursor.from_system
            (Platform.cursor_icon_to_system out_text.cursor_icon)
            = .error "cursor unavailable")
      ∧ ((Platform.targeting envNoCursor rect0).cursor = none
        ∧ (Platform.autoupdate_platform envNoCursor p_fresh out_text).1
          = .error ("Failed to get cursor from systems cursor: "
              ++ "cursor unavailable")) :=
  ⟨⟨rfl, rfl, by decide, rfl, rfl⟩,
   C5_cursor_failure envNoCursor envNoCursor rect0 p_fresh out_text
     "cursor unavailable" "cursor unavailable" rfl rfl (by decide) rfl rfl⟩

/-- Claim C6, counterexample: a key-down whose keycode is UNMAPPED leaves the
modifier state untouched, so after such an event the modifier state does
depend on the adapter state prior to the event: two adapters receiving the
same event (same raw bitmask 0) end with different modifier states. -/
theorem C6_counterexample :
    (p_fresh.handle_event envOk (.keyDown (some .unmapped) 0)).modifiers
      ≠ (c6_ctrl_state.handle_event envOk (.keyDown (some .unmapped) 0)).modifiers := by
  decide

/-- Claim C6 (amended): after `handle_event` processes a key-down or key-up
event WHOSE KEYCODE MAPS TO A LOGICAL KEY, the adapter's modifier state is a
function of that event's raw modifier bitmask alone: two arbitrary adapters
(and environments, and mapped keys) fed the same raw bitmask end with
identical modifier state. Events with no or unmapped keycode skip the
recomputation and keep the prior modifier state. -/
theorem C6_modifiers_of_bitmask (env env2 : NativeEnv) (p q : Platform)
    (k k2 : Key) (keymod : Nat) :
    ((p.handle_event env (.keyDown (some (.mapsTo k)) keymod)).modifiers
        = (q.handle_event env2 (.keyDown (some (.mapsTo k2)) keymod)).modifiers)
      ∧ ((p.handle_event env (.keyUp (some (.mapsTo k)) keymod)).modifiers
        = (q.handle_event env2 (.keyUp (some (.mapsTo k2)) keymod)).modifiers) :=
  ⟨(handle_keyDown_modifiers env p k keymod).trans
      (handle_keyDown_modifiers env2 q k2 keymod).symm,
   (handle_keyUp_modifiers env p k keymod).trans
      (handle_keyUp_modifiers env2 q k2 keymod).symm⟩

/-- Claim C7: in every sequence of events processed by `handle_event` from a
freshly constructed adapter, at most one IME-enabled notification is queued
between one IME-disabled notification and the next (the scan predicate
`imeScanOk false` rejects any trace with a repeated Enabled while armed). -/
theorem C7_enabled_at_most_once (env : NativeEnv) (rect : Rect)
    (es : List SdlEvent) :
    imeScanOk false
        (((Platform.targeting env rect).run_events env es).raw_input.events)
      = true :=
  (imeInv_run_events env es _ (imeInv_targeting env rect)).1

/-- Claim C8: a key-down for `C` with a ctrl key held (and a mapped keycode)
queues both a Copy event and the key-press event for `C` carrying the ctrl
modifier, with Copy ordered first — the interception does not suppress the
key event. -/
theorem C8_ctrl_c_copy (env : NativeEnv) (p : Platform) (keymod : Nat)
    (h : (hasMod keymod LCTRLMOD || hasMod keymod RCTRLMOD) = true) :
    (p.handle_event env (.keyDown (some (.mapsTo .c)) keymod)).raw_input.events
        = p.raw_input.events
          ++ [.copy, .key .c (some .c) true false (modifiersOfKeymod keymod)]
      ∧ (modifiersOfKeymod keymod).ctrl = true :=
  ⟨handle_keyDown_ctrl_c_events env p keymod h, h⟩

/-- Claim C8 witness: concrete instance with the left ctrl bit set on a fresh
adapter. -/
theorem C8_ctrl_c_copy_witness :
    ((hasMod LCTRLMOD LCTRLMOD || hasMod LCTRLMOD RCTRLMOD) = true)
      ∧ ((p_fresh.handle_event envOk
            (.keyDown (some (.mapsTo .c)) LCTRLMOD)).raw_input.events
          = p_fresh.raw_input.events
            ++ [.copy,
                .key .c (some .c) true false (modifiersOfKeymod LCTRLMOD)]
        ∧ (modifiersOfKeymod LCTRLMOD).ctrl = true) :=
  ⟨by decide, C8_ctrl_c_copy envOk p_fresh LCTRLMOD (by decide)⟩

/-- Claim C9: beginning a frame drains the pending event queue — immediately
after `context` the adapter's queue is empty, and a second `context` call
with no intervening events hands the toolkit an empty event list. -/
theorem C9_begin_frame_drains (p : Platform) :
    (p.context).2.raw_input.events = []
      ∧ ((p.context).2.context).1.events = [] :=
  ⟨rfl, rfl⟩

/-- Claim C10: when `autoupdate_platform` is asked for a different cursor
kind and constructing the new native cursor fails, `system_cursor` has
already been updated to the requested kind when the error returns, and a
later call requesting the same kind skips cursor creation entirely — it
succeeds and leaves the state unchanged even under an environment whose
cursor creation still fails. -/
theorem C10_error_path_state (env env2 : NativeEnv) (p : Platform)
    (output : PlatformOutput) (m : String)
    (hcur : p.cursor.isSome = true)
    (hdiff : p.system_cursor ≠ Platform.cursor_icon_to_system output.cursor_icon)
    (hcmds : Platform.run_commands env output.commands = .ok ())
    (hfail : env.from_system
        (Platform.cursor_icon_to_system output.cursor_icon) = .error m)
    (hcmds2 : Platform.run_commands env2 output.commands = .ok ()) :
    (Platform.autoupdate_platform env p output).1
        = .error ("Failed to get cursor from systems cursor: " ++ m)
      ∧ (Platform.autoupdate_platform env p output).2.system_cursor
        = Platform.cursor_icon_to_system output.cursor_icon
      ∧ (Platform.autoupdate_platform env2
          (Platform.autoupdate_platform env p output).2 output).1 = .ok ()
      ∧ (Platform.autoupdate_platform env2
          (Platform.autoupdate_platform env p output).2 output).2
        = (Platform.autoupdate_platform env p output).2 := by
  obtain ⟨c, hc⟩ := Option.isSome_iff_exists.mp hcur
  have h1 : Platform.autoupdate_platform env p output
      = (.error ("Failed to get cursor from systems cursor: " ++ m),
         { p with system_cursor
             := Platform.cursor_icon_to_system output.cursor_icon }) := by
    simp [Platform.autoupdate_platform, hcmds, hc, hdiff, hfail]
  refine ⟨by rw [h1], by rw [h1], ?_, ?_⟩
  · rw [h1]
    simp [Platform.autoupdate_platform, hcmds2, hc]
  · rw [h1]
    simp [Platform.autoupdate_platform, hcmds2, hc]

/-- Claim C10 witness: concrete instance — fresh adapter (arrow cursor),
text-cursor request, empty command list, failing environment. -/
theorem C10_error_path_state_witness :
    (p_fresh.cursor.isSome = true
        ∧ p_fresh.system_cursor
            ≠ Platform.cursor_icon_to_system out_text.cursor_icon
        ∧ Platform.run_commands envNoCursor out_text.commands = .ok ()
        ∧ envNoCursor.from_system
            (Platform.cursor_icon_to_system out_text.cursor_icon)
            = .error "cursor unavailable")
      ∧ ((Platform.autoupdate_platform envNoCursor p_fresh out_text).1
          = .error ("Failed to get cursor from systems cursor: "
              ++ "cursor unavailable")
        ∧ (Platform.autoupdate_platform envNoCursor p_fresh out_text).2.system_cursor
          = Platform.cursor_icon_to_system out_text.cursor_icon
        ∧ (Platform.autoupdate_platform envNoCursor
            (Platform.autoupdate_platform envNoCursor p_fresh out_text).2
            out_text).1 = .ok ()
        ∧ (Platform.autoupdate_platform envNoCursor
            (Platform.autoupdate_platform envNoCursor p_fresh out_text).2
            out_text).2
          = (Platform.autoupdate_platform envNoCursor p_fresh out_text).2) :=
  ⟨⟨rfl, by decide, rfl, rfl⟩,
   C10_error_path_state envNoCursor envNoCursor p_fresh out_text
     "cursor unavailable" rfl (by decide) rfl rfl rfl⟩

end EguiSdl2
